import Mathlib

/-!
# Verification of the botato_bank microservice

A shallow embedding of the two source files of the repository
(`app.py` and `ai_services/ai.py`) together with theorems about the
embedded definitions.

Strings are embedded as `List Char`; Python's dynamically typed JSON
values as the inductive `PyVal`; exceptions as `Except PyErr`.  The
standard-library function `json.loads` is embedded as an executable
recursive-descent parser (`loads`) following Python's `json` grammar
(including its extensions `NaN`, `Infinity`, `-Infinity`); non-integral
JSON numbers are carried as their literal text in the `PyVal.float`
constructor, since IEEE-754 arithmetic plays no role in any claim.
Outbound model calls are parameters ("oracles") of the embedded
functions, so theorems quantify over every possible model behaviour.
-/

/-! ## Python string primitives (on `List Char`) -/

/-- Whitespace characters stripped by Python's `str.strip()` (the ASCII ones;
the source strings never contain the further unicode space characters). -/
def pyIsSpace (c : Char) : Bool :=
  c == ' ' || c == '\t' || c == '\n' || c == '\r' || c == Char.ofNat 11 || c == Char.ofNat 12

/-- `s.lstrip()` -/
def pyStripLeft (l : List Char) : List Char := l.dropWhile pyIsSpace

/-- `s.rstrip()` -/
def pyStripRight (l : List Char) : List Char := (l.reverse.dropWhile pyIsSpace).reverse

/-- Python `s.strip()` -/
def pyStrip (l : List Char) : List Char := pyStripLeft (pyStripRight l)

/-- The suffix of `l` after the first newline, when a newline occurs. -/
def findAfterNl : List Char → Option (List Char)
  | [] => Option.none
  | c :: r => if c = '\n' then some r else findAfterNl r

/-- Python `s.split("\n", 1)[-1]`: the part after the first newline, or the
whole string when there is no newline. -/
def splitNlTail (l : List Char) : List Char := (findAfterNl l).getD l

/-- Scan `l` for the first position where `pat` is a prefix; return the rest
after the match. -/
def dropToMatch (pat : List Char) : List Char → Option (List Char)
  | [] => if pat.isPrefixOf ([] : List Char) then some [] else Option.none
  | c :: r =>
    if pat.isPrefixOf (c :: r) then some ((c :: r).drop pat.length)
    else dropToMatch pat r

/-- Python `s.rsplit(pat, 1)[0]`: everything before the last occurrence of
`pat`, or the whole string when `pat` does not occur.  Found by scanning the
reversed string for the reversed pattern. -/
def rsplitLastHead (pat : List Char) (l : List Char) : List Char :=
  match dropToMatch pat.reverse l.reverse with
  | some rest => rest.reverse
  | Option.none => l

/-- Python `"\n".join(parts)` (for any separator). -/
def pyJoin (sep : List Char) : List (List Char) → List Char
  | [] => []
  | [x] => x
  | x :: y :: rest => x ++ sep ++ pyJoin sep (y :: rest)

/-- Python `s[-4:]`: the last four characters, or the whole string when it has
at most four characters. -/
def pyLastFour (l : List Char) : List Char := l.drop (l.length - 4)

/-! ## Python values and exceptions -/

/-- Python values reachable from parsed JSON (and the handful of literals the
source builds itself). Non-integral numbers keep their literal spelling. -/
inductive PyVal where
  | none : PyVal
  | bool (b : Bool) : PyVal
  | int (n : Int) : PyVal
  | float (lit : List Char) : PyVal
  | str (s : List Char) : PyVal
  | list (xs : List PyVal) : PyVal
  | dict (entries : List (List Char × PyVal)) : PyVal

/-- The Python exception classes the embedded code can raise. -/
inductive PyErr where
  | jsonDecodeError : PyErr
  | attributeError : PyErr
  | typeError : PyErr
  | keyError : PyErr
deriving DecidableEq

/-- Lookup in a Python dict represented as an association list with unique
keys (the JSON parser inserts with replacement, as Python dicts do). -/
def dictLookup (d : List (List Char × PyVal)) (k : List Char) : Option PyVal :=
  match d with
  | [] => Option.none
  | (k', v) :: rest => if k' = k then some v else dictLookup rest k

/-- `d[k] = v` on a Python dict: replaces the value at an existing key in
place, otherwise appends (insertion order is preserved, as in Python). -/
def dictInsert (d : List (List Char × PyVal)) (k : List Char) (v : PyVal) :
    List (List Char × PyVal) :=
  match d with
  | [] => [(k, v)]
  | (k', v') :: rest =>
    if k' = k then (k', v) :: rest else (k', v') :: dictInsert rest k v

/-- Python `d.get(k, dflt)` on a dict. -/
def dGet (d : List (List Char × PyVal)) (k : List Char) (dflt : PyVal) : PyVal :=
  (dictLookup d k).getD dflt

/-- Whether a float literal denotes zero: every mantissa character is `0`,
`.` or a sign (exponent ignored).  Models Python float truthiness for the
literals the parser produces; its value never matters to any claim. -/
def floatLitIsZero (lit : List Char) : Bool :=
  (lit.takeWhile (fun c => c != 'e' && c != 'E')).all
    (fun c => c == '0' || c == '.' || c == '-' || c == '+')

/-- Python truthiness (`bool(v)` / `if v:`). -/
def pyTruthy : PyVal → Bool
  | PyVal.none => false
  | PyVal.bool b => b
  | PyVal.int n => n != 0
  | PyVal.float lit => ! floatLitIsZero lit
  | PyVal.str s => ! s.isEmpty
  | PyVal.list xs => ! xs.isEmpty
  | PyVal.dict d => ! d.isEmpty

/-! ## `json.loads` -/

/-- Whitespace skipped by Python's JSON scanner (`' \t\n\r'`). -/
def skipWs : List Char → List Char
  | [] => []
  | c :: r =>
    if c = ' ' ∨ c = '\t' ∨ c = '\n' ∨ c = '\r' then skipWs r else c :: r

/-- Value of one hex digit. -/
def hexDigitVal (c : Char) : Option Nat :=
  if '0' ≤ c ∧ c ≤ '9' then some (c.toNat - '0'.toNat)
  else if 'a' ≤ c ∧ c ≤ 'f' then some (c.toNat - 'a'.toNat + 10)
  else if 'A' ≤ c ∧ c ≤ 'F' then some (c.toNat - 'A'.toNat + 10)
  else Option.none

/-- Body of a JSON string after the opening quote: returns the decoded
characters and the input after the closing quote.  Strict mode: raw control
characters are rejected; the standard escapes and `\uXXXX` are decoded
(surrogate pairs are not recombined, which no claim touches). -/
def parseStringBody : List Char → Except Unit (List Char × List Char)
  | [] => .error ()
  | '"' :: r => .ok ([], r)
  | '\\' :: '"' :: r => (parseStringBody r).map fun p => ('"' :: p.1, p.2)
  | '\\' :: '\\' :: r => (parseStringBody r).map fun p => ('\\' :: p.1, p.2)
  | '\\' :: '/' :: r => (parseStringBody r).map fun p => ('/' :: p.1, p.2)
  | '\\' :: 'b' :: r => (parseStringBody r).map fun p => (Char.ofNat 8 :: p.1, p.2)
  | '\\' :: 'f' :: r => (parseStringBody r).map fun p => (Char.ofNat 12 :: p.1, p.2)
  | '\\' :: 'n' :: r => (parseStringBody r).map fun p => ('\n' :: p.1, p.2)
  | '\\' :: 'r' :: r => (parseStringBody r).map fun p => ('\r' :: p.1, p.2)
  | '\\' :: 't' :: r => (parseStringBody r).map fun p => ('\t' :: p.1, p.2)
  | '\\' :: 'u' :: a :: b :: c :: d :: r =>
    (match hexDigitVal a, hexDigitVal b, hexDigitVal c, hexDigitVal d with
     | some x1, some x2, some x3, some x4 =>
       (parseStringBody r).map fun p =>
         (Char.ofNat (((x1 * 16 + x2) * 16 + x3) * 16 + x4) :: p.1, p.2)
     | _, _, _, _ => .error ())
  | '\\' :: _ => .error ()
  | c :: r =>
    if c.toNat < 32 then .error ()
    else (parseStringBody r).map fun p => (c :: p.1, p.2)

/-- Take a maximal run of decimal digits. -/
def takeDigits : List Char → List Char × List Char
  | [] => ([], [])
  | c :: r =>
    if c.isDigit then
      let p := takeDigits r
      (c :: p.1, p.2)
    else ([], c :: r)

/-- Digits to a natural number. -/
def digitsToNat (ds : List Char) : Nat :=
  ds.foldl (fun a c => a * 10 + (c.toNat - 48)) 0

/-- A JSON number, following the maximal-munch regex of Python's scanner
`(-?(0|[1-9]\d*))(\.\d+)?([eE][-+]?\d+)?`: integral matches produce Python
ints, anything with a fraction or exponent produces a float (kept as its
literal text). -/
def parseNumberCore (s : List Char) : Except Unit (PyVal × List Char) :=
  let signed := match s with | '-' :: r => (true, r) | _ => (false, s)
  let neg := signed.1
  match signed.2 with
  | [] => .error ()
  | c :: r =>
    if ¬ c.isDigit then .error ()
    else
      let ip := if c = '0' then ([c], r) else takeDigits (c :: r)
      let intDigits := ip.1
      let rest1 := ip.2
      let fp :=
        match rest1 with
        | '.' :: r2 =>
          (match takeDigits r2 with
           | ([], _) => (([] : List Char), rest1)
           | (ds2, rr) => (ds2, rr))
        | _ => ([], rest1)
      let fracDigits := fp.1
      let rest2 := fp.2
      let ep :=
        match rest2 with
        | e :: r3 =>
          if e = 'e' ∨ e = 'E' then
            let sp := match r3 with
              | '+' :: r5 => (['+'], r5)
              | '-' :: r5 => (['-'], r5)
              | _ => ([], r3)
            (match takeDigits sp.2 with
             | ([], _) => (([] : List Char), rest2)
             | (ds3, rr) => (e :: sp.1 ++ ds3, rr))
          else ([], rest2)
        | [] => ([], rest2)
      let expChars := ep.1
      let rest3 := ep.2
      if fracDigits = [] ∧ expChars = [] then
        .ok (.int (if neg then -(digitsToNat intDigits : Int) else (digitsToNat intDigits : Int)), rest3)
      else
        .ok (.float ((if neg then ['-'] else []) ++ intDigits ++
          (if fracDigits = [] then [] else '.' :: fracDigits) ++ expChars), rest3)

mutual

/-- One JSON value (leading whitespace allowed), returning the remaining
input.  `fuel` only bounds recursion depth; `loads` supplies more fuel than
any input can consume. -/
def parseJsonValue (fuel : Nat) (s : List Char) : Except Unit (PyVal × List Char) :=
  match fuel with
  | 0 => .error ()
  | fuel' + 1 =>
    match skipWs s with
    | [] => .error ()
    | '{' :: r =>
      (match skipWs r with
       | '}' :: r2 => .ok (.dict [], r2)
       | r2 => parseObjMembers fuel' r2 [])
    | '[' :: r =>
      (match skipWs r with
       | ']' :: r2 => .ok (.list [], r2)
       | r2 => parseArrItems fuel' r2 [])
    | '"' :: r => (parseStringBody r).map fun p => (.str p.1, p.2)
    | 't' :: 'r' :: 'u' :: 'e' :: r => .ok (.bool true, r)
    | 'f' :: 'a' :: 'l' :: 's' :: 'e' :: r => .ok (.bool false, r)
    | 'n' :: 'u' :: 'l' :: 'l' :: r => .ok (.none, r)
    | 'N' :: 'a' :: 'N' :: r => .ok (.float ('N' :: 'a' :: 'N' :: []), r)
    | 'I' :: 'n' :: 'f' :: 'i' :: 'n' :: 'i' :: 't' :: 'y' :: r =>
      .ok (.float "Infinity".toList, r)
    | '-' :: 'I' :: 'n' :: 'f' :: 'i' :: 'n' :: 'i' :: 't' :: 'y' :: r =>
      .ok (.float "-Infinity".toList, r)
    | s' => parseNumberCore s'

/-- Members of a JSON object after `{` (first key expected at the head,
whitespace already skipped). -/
def parseObjMembers (fuel : Nat) (s : List Char)
    (acc : List (List Char × PyVal)) : Except Unit (PyVal × List Char) :=
  match fuel with
  | 0 => .error ()
  | fuel' + 1 =>
    match s with
    | '"' :: r =>
      (match parseStringBody r with
       | .error _ => .error ()
       | .ok (key, r2) =>
         match skipWs r2 with
         | ':' :: r3 =>
           (match parseJsonValue fuel' r3 with
            | .error _ => .error ()
            | .ok (v, r4) =>
              let acc' := dictInsert acc key v
              match skipWs r4 with
              | ',' :: r5 => parseObjMembers fuel' (skipWs r5) acc'
              | '}' :: r5 => .ok (.dict acc', r5)
              | _ => .error ())
         | _ => .error ())
    | _ => .error ()

/-- Items of a JSON array after `[` (first item pending). -/
def parseArrItems (fuel : Nat) (s : List Char) (acc : List PyVal) :
    Except Unit (PyVal × List Char) :=
  match fuel with
  | 0 => .error ()
  | fuel' + 1 =>
    match parseJsonValue fuel' s with
    | .error _ => .error ()
    | .ok (v, r) =>
      match skipWs r with
      | ',' :: r2 => parseArrItems fuel' r2 (acc ++ [v])
      | ']' :: r2 => .ok (.list (acc ++ [v]), r2)
      | _ => .error ()

end

/-- Python `json.loads`: parse one value and require only whitespace after
it.  An `.error` outcome is Python's `json.JSONDecodeError`. -/
def loads (s : List Char) : Except Unit PyVal :=
  match parseJsonValue (s.length + 8) s with
  | .error _ => .error ()
  | .ok (v, rest) => if skipWs rest = [] then .ok v else .error ()


/-! ## `validate_national_id` (ai.py): post-processing of the model reply -/

/-- The result dictionary shape of `validate_national_id`:
`{"valid": bool, "idNumber": ..., "error": ...}`.  `valid` is always a Python
bool (built by `bool(...)`); the other two fields carry whatever the parsed
JSON object held (Python `None` when absent). -/
structure ValidationResult where
  valid : Bool
  idNumber : PyVal
  error : PyVal

/-- The backtick character. -/
def btick : Char := Char.ofNat 96

/-- The markdown fence token. -/
def fenceTok : List Char := [btick, btick, btick]

/-- Lines 71–73 of ai.py: when the (stripped) reply starts with a fence,
replace it by `raw.split("\n", 1)[-1].rsplit("```", 1)[0].strip()`. -/
def stripFences (raw : List Char) : List Char :=
  if fenceTok.isPrefixOf raw then pyStrip (rsplitLastHead fenceTok (splitNlTail raw))
  else raw

/-- Lines 66–84 of ai.py: strip the reply, strip fences, `json.loads` it and
coerce.  Only `json.JSONDecodeError` is caught; when the parsed value is not
a dict, the `.get` attribute accesses raise `AttributeError`, which escapes. -/
def parseModelText (content : List Char) : Except PyErr ValidationResult :=
  match loads (stripFences (pyStrip content)) with
  | .ok (.dict result) =>
    .ok ⟨pyTruthy (dGet result "valid".toList (.bool false)),
         dGet result "idNumber".toList PyVal.none,
         dGet result "error".toList PyVal.none⟩
  | .ok _ => .error .attributeError
  | .error _ => .ok ⟨false, PyVal.none, .str "Failed to parse AI response".toList⟩

/-- `validate_national_id`, with the outbound vision call abstracted as the
oracle `model` giving the text content of the top completion choice. -/
def validate_national_id (model : List Nat → List Char)
    (image_bytes : List Nat) : Except PyErr ValidationResult :=
  parseModelText (model image_bytes)

/-! ## The `validate-id` route (app.py) -/

/-- A multipart file upload as the route sees it. -/
structure UploadedFile where
  filename : List Char
  content_type : List Char
  content : List Nat

/-- The allowed content types of the route. -/
def allowed : List (List Char) :=
  ["image/jpeg".toList, "image/png".toList, "image/jpg".toList, "image/webp".toList]

/-- The `validate_id` route.  `validator` abstracts `validate_national_id`
(which may raise); `image` is `request.files["image"]` when present.  The
result pairs the HTTP outcome (`.error` = an exception escaping the route)
with a flag recording whether `validator` was invoked. -/
def validate_id (validator : List Nat → Except PyErr ValidationResult)
    (image : Option UploadedFile) : (Except PyErr (ValidationResult × Nat)) × Bool :=
  match image with
  | Option.none =>
    (.ok (⟨false, PyVal.none, .str "No image file provided".toList⟩, 400), false)
  | some f =>
    if f.filename = [] then
      (.ok (⟨false, PyVal.none, .str "Empty filename".toList⟩, 400), false)
    else if f.content_type ∉ allowed then
      (.ok (⟨false, PyVal.none, .str "Invalid file type".toList⟩, 400), false)
    else if f.content.length = 0 then
      (.ok (⟨false, PyVal.none, .str "Empty file".toList⟩, 400), false)
    else
      match validator f.content with
      | .ok result => (.ok (result, if result.valid then 200 else 400), true)
      | .error e => (.error e, true)

/-! ## The `chat` route (app.py) -/

/-- The apostrophe character (kept out of string literals). -/
def apos : Char := Char.ofNat 39

/-- The route error message `Missing (apostrophe)message(apostrophe) field`. -/
def missingMessageErr : List Char :=
  "Missing ".toList ++ [apos] ++ "message".toList ++ [apos] ++ " field".toList

/-- Boolean substring test (`pat` occurs contiguously in the second list). -/
def substrOf (pat : List Char) : List Char → Bool
  | [] => pat.isEmpty
  | c :: r => pat.isPrefixOf (c :: r) || substrOf pat r

/-- Python `key in v` for a string key: key membership for dicts, element
equality for lists, substring containment for strings, `TypeError` for the
remaining (non-container, non-iterable) values. -/
def pyInOp (key : List Char) : PyVal → Except PyErr Bool
  | PyVal.dict d => .ok (dictLookup d key).isSome
  | PyVal.list xs =>
    .ok (xs.any fun x => match x with | PyVal.str s => s == key | _ => false)
  | PyVal.str s => .ok (substrOf key s)
  | _ => .error .typeError

/-- Python `v[key]` for a string key: dict lookup (`KeyError` when absent),
`TypeError` for every other value (string and list indices must be
integers). -/
def pyGetItem (v : PyVal) (key : List Char) : Except PyErr PyVal :=
  match v with
  | PyVal.dict d =>
    match dictLookup d key with
    | some x => .ok x
    | Option.none => .error .keyError
  | _ => .error .typeError

/-- Python `v.get(key, dflt)`: only dicts have the method; everything else
raises `AttributeError`. -/
def pyDotGet (v : PyVal) (key : List Char) (dflt : PyVal) : Except PyErr PyVal :=
  match v with
  | PyVal.dict d => .ok (dGet d key dflt)
  | _ => .error .attributeError

/-- The `chat` route.  `data` is the result of `request.get_json()`, with
Python `None` (`PyVal.none`) standing both for a JSON `null` body and for a
body that is not JSON (`get_json` is modelled as yielding `None` then).
`bot` abstracts `chatbot.chat`; its `.error` carries `str(e)` of the raised
exception, all of which the route's `try/except` turns into a 500.
Exceptions raised outside the `try` (by `not in`, `data["message"]` or
`.get`) escape as `.error`. -/
def chatRoute (bot : PyVal → PyVal → PyVal → Except (List Char) (List Char))
    (data : PyVal) : Except PyErr (PyVal × Nat) :=
  if ¬ pyTruthy data then
    .ok (.dict [("error".toList, .str missingMessageErr)], 400)
  else
    match pyInOp "message".toList data with
    | .error e => .error e
    | .ok mem =>
      if ¬ mem then
        .ok (.dict [("error".toList, .str missingMessageErr)], 400)
      else
        match pyGetItem data "message".toList with
        | .error e => .error e
        | .ok message =>
          match pyDotGet data "conversationHistory".toList (.list []) with
          | .error e => .error e
          | .ok history =>
            match pyDotGet data "userContext".toList (.dict []) with
            | .error e => .error e
            | .ok user_context =>
              match bot message history user_context with
              | .ok reply => .ok (.dict [("reply".toList, .str reply)], 200)
              | .error e =>
                .ok (.dict [("error".toList,
                  .str ("Chat service error: ".toList ++ e))], 500)

/-! ## `BankChatbot` (ai.py) -/

/-- One role-tagged chat message. -/
structure ChatTurn where
  role : List Char
  content : List Char

/-- One account of the caller-supplied user context (fields the source reads
via `.get`; `Option.none` models an absent key).  Monetary amounts are
embedded as integers: every formatting the source applies to them is exact
on integers, and no claim concerns non-integral amounts. -/
structure Account where
  accountNumber : Option (List Char)
  type : Option (List Char)
  balance : Option Int
  currency : Option (List Char)
  status : Option (List Char)

/-- One transaction of the user context. -/
structure Transaction where
  date : Option (List Char)
  type : Option (List Char)
  amount : Option Int
  description : Option (List Char)
  balanceAfter : Option Int

/-- The caller-supplied banking context. -/
structure UserContext where
  userName : Option (List Char)
  accounts : List Account
  recentTransactions : List Transaction

/-- Python `f"{n:.2f}"` for an integral amount. -/
def fmtTwoDec (n : Int) : List Char := (toString n).toList ++ ".00".toList

/-- Python `f"{n:+.2f}"` for an integral amount. -/
def fmtSignedTwoDec (n : Int) : List Char :=
  (if 0 ≤ n then ['+'] else []) ++ (toString n).toList ++ ".00".toList

/-- Line 161 of ai.py: `"***" + acc.get("accountNumber", "")[-4:]`. -/
def maskAccountNumber (num : List Char) : List Char := "***".toList ++ pyLastFour num

/-- The account line of `_build_context`. -/
def accountLine (acc : Account) : List Char :=
  "  - ".toList ++ acc.type.getD "Account".toList ++ " (".toList ++
  maskAccountNumber (acc.accountNumber.getD []) ++ "): ".toList ++
  fmtTwoDec (acc.balance.getD 0) ++ " ".toList ++
  acc.currency.getD "USD".toList ++ " [Status: ".toList ++
  acc.status.getD "Active".toList ++ "]".toList

/-- The transaction line of `_build_context`. -/
def transactionLine (tx : Transaction) : List Char :=
  "  - [".toList ++ tx.date.getD [] ++ "] ".toList ++ tx.type.getD [] ++
  ": ".toList ++ fmtSignedTwoDec (tx.amount.getD 0) ++ " USD — ".toList ++
  tx.description.getD "N/A".toList ++ " (Balance after: ".toList ++
  fmtTwoDec (tx.balanceAfter.getD 0) ++ ")".toList

/-- `BankChatbot._build_context`: the rendered context block. -/
def _build_context (user_context : UserContext) : List Char :=
  let parts := ["Customer: ".toList ++ user_context.userName.getD "Customer".toList]
  let parts := parts ++
    (if user_context.accounts.isEmpty then []
     else "\nAccounts:".toList :: user_context.accounts.map accountLine)
  let parts := parts ++
    (if user_context.recentTransactions.isEmpty then []
     else ("\nRecent Transactions (last ".toList ++
           (toString user_context.recentTransactions.length).toList ++
           "):".toList) :: user_context.recentTransactions.map transactionLine)
  pyJoin ['\n'] parts

/-- `BankChatbot.SYSTEM_PROMPT` (apostrophes spliced in). -/
def SYSTEM_PROMPT : List Char :=
  "You are Atomic Bank".toList ++ [apos] ++
  "s AI banking assistant. You help customers with their banking questions. You have access to the customer".toList ++ [apos] ++
  "s account information and transaction history provided below. Use this data to answer questions about their balance, recent transactions, spending patterns, etc. Be concise, helpful, and professional. If asked about something outside banking, politely redirect. Always respond in the same language the user writes in (Arabic, French, or English). Never reveal sensitive details like full account numbers — use masked versions (e.g. ***1234). Amounts are in USD unless stated otherwise.".toList

/-- `CHAT_MODEL` of ai.py. -/
def CHAT_MODEL : List Char := "google/gemini-2.5-flash".toList

/-- One outbound chat-completion request as `BankChatbot.chat` issues it. -/
structure ChatRequest where
  model : List Char
  messages : List ChatTurn
  max_tokens : Nat
  temperature : ℚ

/-- The message sequence `BankChatbot.chat` composes: the two system
messages, then the history appended one turn at a time (the `for` loop),
then the new user message. -/
def chatMessages (user_message : List Char) (conversation_history : List ChatTurn)
    (user_context : UserContext) : List ChatTurn :=
  let context_block := _build_context user_context
  let messages : List ChatTurn :=
    [⟨"system".toList, SYSTEM_PROMPT⟩,
     ⟨"system".toList, "Customer data:\n".toList ++ context_block⟩]
  let messages := conversation_history.foldl
    (fun acc msg => acc ++ [⟨msg.role, msg.content⟩]) messages
  messages ++ [⟨"user".toList, user_message⟩]

/-- The completion request of `BankChatbot.chat` (lines 146–151 of ai.py). -/
def chatCompletionRequest (user_message : List Char)
    (conversation_history : List ChatTurn) (user_context : UserContext) : ChatRequest :=
  { model := CHAT_MODEL,
    messages := chatMessages user_message conversation_history user_context,
    max_tokens := 500,
    temperature := 7 / 10 }

/-- `BankChatbot.chat`, with the outbound call abstracted as the oracle
`complete` giving the text content of the top choice; the source strips it. -/
def BankChatbot.chat (complete : ChatRequest → List Char) (user_message : List Char)
    (conversation_history : List ChatTurn) (user_context : UserContext) : List Char :=
  pyStrip (complete (chatCompletionRequest user_message conversation_history user_context))


/-! ## Helper lemmas -/

theorem pyStripLeft_cons_nonspace (c : Char) (l : List Char) (h : pyIsSpace c = false) :
    pyStripLeft (c :: l) = c :: l := by
  simp [pyStripLeft, List.dropWhile_cons, h]

theorem pyStripRight_snoc_nonspace (l : List Char) (c : Char) (h : pyIsSpace c = false) :
    pyStripRight (l ++ [c]) = l ++ [c] := by
  simp [pyStripRight, List.dropWhile_cons, h]

theorem pyStripRight_snoc_space (l : List Char) (c : Char) (h : pyIsSpace c = true) :
    pyStripRight (l ++ [c]) = pyStripRight l := by
  simp [pyStripRight, List.dropWhile_cons, h]

theorem pyStrip_snoc_newline (l : List Char) : pyStrip (l ++ ['\n']) = pyStrip l := by
  rw [pyStrip, pyStrip, pyStripRight_snoc_space l '\n' (by decide)]

theorem pyStrip_eq_self_of_ends (a c : Char) (m : List Char)
    (ha : pyIsSpace a = false) (hc : pyIsSpace c = false) :
    pyStrip (a :: (m ++ [c])) = a :: (m ++ [c]) := by
  have h1 : pyStripRight (a :: (m ++ [c])) = a :: (m ++ [c]) := by
    have he : a :: (m ++ [c]) = (a :: m) ++ [c] := by simp
    rw [he, pyStripRight_snoc_nonspace _ _ hc]
  rw [pyStrip, h1, pyStripLeft_cons_nonspace _ _ ha]

theorem isPrefixOf_append_self (p l : List Char) : p.isPrefixOf (p ++ l) = true := by
  rw [List.isPrefixOf_iff_prefix]
  exact List.prefix_append p l

/-- The fence wrapping of a reply the specification speaks about:
the reply surrounded by markdown code fences on their own lines. -/
def wrapFence (s : List Char) : List Char := fenceTok ++ '\n' :: (s ++ '\n' :: fenceTok)

theorem pyStrip_wrapFence (s : List Char) : pyStrip (wrapFence s) = wrapFence s := by
  have he : wrapFence s = btick :: ((btick :: btick :: '\n' :: (s ++ ['\n', btick, btick])) ++ [btick]) := by
    simp [wrapFence, fenceTok]
  rw [he, pyStrip_eq_self_of_ends btick btick _ (by decide) (by decide)]

theorem fence_isPrefixOf_wrapFence (s : List Char) :
    fenceTok.isPrefixOf (wrapFence s) = true := by
  rw [wrapFence]
  exact isPrefixOf_append_self fenceTok _

theorem splitNlTail_wrapFence (s : List Char) :
    splitNlTail (wrapFence s) = s ++ '\n' :: fenceTok := by
  have hb : ¬ (btick = '\n') := by decide
  simp [splitNlTail, wrapFence, fenceTok, findAfterNl, hb]

theorem rsplitLastHead_fence (s : List Char) :
    rsplitLastHead fenceTok (s ++ '\n' :: fenceTok) = s ++ ['\n'] := by
  have hrev : (s ++ '\n' :: fenceTok).reverse = fenceTok ++ '\n' :: s.reverse := by
    simp [fenceTok]
  have hpre : fenceTok.isPrefixOf (fenceTok ++ '\n' :: s.reverse) = true :=
    isPrefixOf_append_self fenceTok _
  have hfr : fenceTok.reverse = fenceTok := by decide
  have hdrop : (fenceTok ++ '\n' :: s.reverse).drop fenceTok.length = '\n' :: s.reverse :=
    List.drop_left fenceTok _
  have hd : dropToMatch fenceTok (fenceTok ++ '\n' :: s.reverse) = some ('\n' :: s.reverse) := by
    have hcons : fenceTok ++ '\n' :: s.reverse =
        btick :: (btick :: btick :: '\n' :: s.reverse) := by simp [fenceTok]
    rw [hcons] at hpre hdrop ⊢
    simp only [dropToMatch, hpre, if_true]
    rw [hdrop]
  simp only [rsplitLastHead, hfr, hrev, hd]
  simp

theorem stripFences_wrapFence (s : List Char) : stripFences (wrapFence s) = pyStrip s := by
  rw [stripFences, if_pos]
  · rw [splitNlTail_wrapFence, rsplitLastHead_fence, pyStrip_snoc_newline]
  · exact (fence_isPrefixOf_wrapFence s)

theorem substrOf_of_infix (p l : List Char) (h : p <:+: l) : substrOf p l = true := by
  induction l with
  | nil =>
    rcases h with ⟨u, v, he⟩
    have hp : p = [] := by
      rcases List.append_eq_nil.mp he with ⟨h1, h2⟩
      exact (List.append_eq_nil.mp h1).2
    simp [substrOf, hp]
  | cons c r ih =>
    rcases h with ⟨u, v, he⟩
    cases u with
    | nil =>
      have hpre : p <+: c :: r := ⟨v, by simpa using he⟩
      simp [substrOf, List.isPrefixOf_iff_prefix.mpr hpre]
    | cons c' u' =>
      have hr : r = u' ++ p ++ v := by
        have := he
        simp only [List.cons_append, List.cons.injEq] at this
        exact this.2.symm
      have : p <:+: r := ⟨u', v, hr.symm⟩
      simp [substrOf, ih this]

theorem infix_pyJoin (sep : List Char) (L : List (List Char)) (x : List Char)
    (hx : x ∈ L) : x <:+: pyJoin sep L := by
  induction L with
  | nil => cases hx
  | cons a t ih =>
    cases t with
    | nil =>
      have : x = a := by simpa using hx
      subst this
      simp [pyJoin]
    | cons b t2 =>
      rcases List.mem_cons.mp hx with h1 | h2
      · subst h1
        have : pyJoin sep (x :: b :: t2) = x ++ (sep ++ pyJoin sep (b :: t2)) := by
          simp [pyJoin]
        rw [this]
        exact (List.prefix_append x _).isInfix
      · have hmem : x <:+: pyJoin sep (b :: t2) := ih h2
        have : pyJoin sep (a :: b :: t2) = (a ++ sep) ++ pyJoin sep (b :: t2) := by
          simp [pyJoin]
        rw [this]
        exact hmem.trans (List.suffix_append _ _).isInfix

theorem foldl_append_turns (L : List ChatTurn) (init : List ChatTurn) :
    L.foldl (fun acc msg => acc ++ [⟨msg.role, msg.content⟩]) init = init ++ L := by
  induction L generalizing init with
  | nil => simp
  | cons a t ih =>
    simp only [List.foldl_cons]
    rw [ih]
    simp

theorem pyLastFour_short (l : List Char) (h : l.length ≤ 4) : pyLastFour l = l := by
  rw [pyLastFour, Nat.sub_eq_zero_of_le h]
  rfl


/-! ## Claims about `validate_national_id` (C1, C3, C8) -/

/-- Projection used to compare validator outcomes. -/
def resultValid : Except PyErr ValidationResult → Option Bool
  | .ok r => some r.valid
  | .error _ => Option.none

/-- C1, counterexample: the model output `123` is valid JSON but not a JSON
object; the claim says the validator returns the parse-failure dictionary and
never raises, but on this input the code raises `AttributeError` (only
`json.JSONDecodeError` is caught, and `int` has no `.get`). -/
theorem claim1_cex :
    loads "123".toList = .ok (.int 123) ∧
    parseModelText "123".toList = .error .attributeError :=
  ⟨rfl, rfl⟩

/-- C1 (amended): for every model output whose text (after trimming and
fence-stripping) fails JSON parsing, `validate_national_id` returns
`{valid: false, idNumber: None, error: "Failed to parse AI response"}` and
does not raise; but output that parses as JSON without being a JSON object
raises `AttributeError` instead of being recovered. -/
theorem claim1_parse_failure (t : List Char) :
    (loads (stripFences (pyStrip t)) = .error () →
      parseModelText t =
        .ok ⟨false, PyVal.none, .str "Failed to parse AI response".toList⟩) ∧
    (∀ v : PyVal, loads (stripFences (pyStrip t)) = .ok v →
      (∀ entries, v ≠ PyVal.dict entries) →
      parseModelText t = .error .attributeError) := by
  constructor
  · intro h
    simp only [parseModelText, h]
  · intro v hv hnd
    cases v with
    | dict entries => exact absurd rfl (hnd entries)
    | none => simp only [parseModelText, hv]
    | bool b => simp only [parseModelText, hv]
    | int n => simp only [parseModelText, hv]
    | float lit => simp only [parseModelText, hv]
    | str s => simp only [parseModelText, hv]
    | list xs => simp only [parseModelText, hv]

/-- C1, witness: a plain-text model reply is not JSON, and the validator
returns the parse-failure dictionary on it. -/
theorem claim1_witness :
    loads (stripFences (pyStrip "the image is valid".toList)) = .error () ∧
    parseModelText "the image is valid".toList =
      .ok ⟨false, PyVal.none, .str "Failed to parse AI response".toList⟩ :=
  ⟨rfl, (claim1_parse_failure "the image is valid".toList).1 rfl⟩

/-- A model reply that is itself a fenced JSON block (used to refute C3 as
universally stated). -/
def fencedReply : List Char := wrapFence "\x7b\"valid\": true\x7d".toList

/-- C3, counterexample: for a reply that itself begins with a code fence,
parsing the fence-wrapped reply does not agree with parsing the reply
directly — the single fence-stripping pass removes only the outer fences, so
the wrapped form fails JSON parsing while the unwrapped form succeeds. -/
theorem claim3_cex :
    resultValid (parseModelText (wrapFence fencedReply)) = some false ∧
    resultValid (parseModelText fencedReply) = some true ∧
    parseModelText (wrapFence fencedReply) ≠ parseModelText fencedReply := by
  refine ⟨rfl, rfl, ?_⟩
  intro h
  have h2 := congrArg resultValid h
  have e1 : resultValid (parseModelText (wrapFence fencedReply)) = some false := rfl
  have e2 : resultValid (parseModelText fencedReply) = some true := rfl
  rw [e1, e2] at h2
  simp at h2

/-- C3 (amended): for every model response `s` that does not itself begin
with a code fence (after trimming), the validator yields the same
`ValidationResult` on the fence-wrapped form of `s` as on `s` itself; the
fence-stripping step is applied before JSON parsing. -/
theorem claim3_fence_strip (s : List Char)
    (h : fenceTok.isPrefixOf (pyStrip s) = false) :
    parseModelText (wrapFence s) = parseModelText s := by
  have h1 : stripFences (pyStrip (wrapFence s)) = pyStrip s := by
    rw [pyStrip_wrapFence, stripFences_wrapFence]
  have h2 : stripFences (pyStrip s) = pyStrip s := by
    rw [stripFences, if_neg]
    simp [h]
  simp only [parseModelText, h1, h2]

/-- C3, witness: on the plain JSON verdict, wrapping in fences changes
nothing. -/
theorem claim3_witness :
    fenceTok.isPrefixOf (pyStrip "\x7b\"valid\": true\x7d".toList) = false ∧
    parseModelText (wrapFence "\x7b\"valid\": true\x7d".toList) =
      parseModelText "\x7b\"valid\": true\x7d".toList :=
  ⟨rfl, claim3_fence_strip "\x7b\"valid\": true\x7d".toList rfl⟩

/-- C8: every model output parsing (after trimming and fence-stripping) to a
JSON object is coerced into a `ValidationResult` whose `valid` field is the
boolean coercion of the object's `valid` entry, defaulting to false when the
entry is absent, and whose `idNumber`/`error` fields carry the object's
entries, `None` when absent. -/
theorem claim8_coercion (t : List Char) (entries : List (List Char × PyVal))
    (h : loads (stripFences (pyStrip t)) = .ok (.dict entries)) :
    parseModelText t =
      .ok ⟨pyTruthy (dGet entries "valid".toList (.bool false)),
           dGet entries "idNumber".toList PyVal.none,
           dGet entries "error".toList PyVal.none⟩ ∧
    (dictLookup entries "valid".toList = Option.none →
      pyTruthy (dGet entries "valid".toList (.bool false)) = false) ∧
    (dictLookup entries "idNumber".toList = Option.none →
      dGet entries "idNumber".toList PyVal.none = PyVal.none) ∧
    (dictLookup entries "error".toList = Option.none →
      dGet entries "error".toList PyVal.none = PyVal.none) := by
  refine ⟨by simp only [parseModelText, h], ?_, ?_, ?_⟩
  · intro hl
    rw [dGet, hl]
    rfl
  · intro hl
    rw [dGet, hl]
    rfl
  · intro hl
    rw [dGet, hl]
    rfl

/-- C8, witness: a concrete object reply with `valid` and `idNumber` and no
`error` entry. -/
theorem claim8_witness :
    loads (stripFences (pyStrip "\x7b\"valid\": true, \"idNumber\": \"AB123\"\x7d".toList)) =
      .ok (.dict [("valid".toList, .bool true), ("idNumber".toList, .str "AB123".toList)]) ∧
    parseModelText "\x7b\"valid\": true, \"idNumber\": \"AB123\"\x7d".toList =
      .ok ⟨true, .str "AB123".toList, PyVal.none⟩ :=
  ⟨rfl, by
    have h := (claim8_coercion "\x7b\"valid\": true, \"idNumber\": \"AB123\"\x7d".toList
      [("valid".toList, .bool true), ("idNumber".toList, .str "AB123".toList)] rfl).1
    exact h⟩

/-! ## Claims about the `validate-id` route (C2, C5, C9) -/

/-- A concrete stand-in for `validate_national_id` used by witnesses. -/
def okValidator : List Nat → Except PyErr ValidationResult :=
  fun _ => .ok ⟨true, PyVal.none, PyVal.none⟩

/-- C2: every upload whose content type is outside the allowed set, and every
upload with empty byte content, is answered 400 by the `validate_id` route
without `validate_national_id` ever being invoked (for any behaviour of the
validator). -/
theorem claim2_no_model_call (validator : List Nat → Except PyErr ValidationResult)
    (f : UploadedFile) (h : f.content_type ∉ allowed ∨ f.content = []) :
    (∃ r : ValidationResult, (validate_id validator (some f)).1 = .ok (r, 400)) ∧
    (validate_id validator (some f)).2 = false := by
  by_cases hf : f.filename = []
  · exact ⟨⟨⟨false, PyVal.none, .str "Empty filename".toList⟩,
      by simp [validate_id, hf]⟩, by simp [validate_id, hf]⟩
  · rcases h with h | h
    · exact ⟨⟨⟨false, PyVal.none, .str "Invalid file type".toList⟩,
        by simp [validate_id, hf, h]⟩, by simp [validate_id, hf, h]⟩
    · by_cases ht : f.content_type ∈ allowed
      · refine ⟨⟨⟨false, PyVal.none, .str "Empty file".toList⟩, ?_⟩, ?_⟩ <;>
          simp [validate_id, hf, ht, h]
      · exact ⟨⟨⟨false, PyVal.none, .str "Invalid file type".toList⟩,
          by simp [validate_id, hf, ht]⟩, by simp [validate_id, hf, ht]⟩

/-- C2, witness: a text upload is refused with 400 and the validator flag
stays false. -/
theorem claim2_witness :
    ("text/plain".toList ∉ allowed ∨ ([3] : List Nat) = []) ∧
    ((∃ r : ValidationResult,
        (validate_id okValidator (some ⟨"a.txt".toList, "text/plain".toList, [3]⟩)).1 =
          .ok (r, 400)) ∧
      (validate_id okValidator (some ⟨"a.txt".toList, "text/plain".toList, [3]⟩)).2 = false) :=
  ⟨Or.inl (by decide),
   claim2_no_model_call okValidator ⟨"a.txt".toList, "text/plain".toList, [3]⟩
     (Or.inl (by decide))⟩

/-- C5: for every request passing the upload validations whose validator call
returns a result `r`, the route answers with body `r` and status 200 exactly
when `r.valid` is true, 400 exactly when it is false (covering model-judged
invalid cards and parse-failure results alike). -/
theorem claim5_status (validator : List Nat → Except PyErr ValidationResult)
    (f : UploadedFile) (r : ValidationResult)
    (h1 : f.filename ≠ []) (h2 : f.content_type ∈ allowed) (h3 : f.content ≠ [])
    (h4 : validator f.content = .ok r) :
    (validate_id validator (some f)).1 = .ok (r, if r.valid then 200 else 400) ∧
    ((if r.valid then 200 else 400) = 200 ↔ r.valid = true) ∧
    ((if r.valid then 200 else 400) = 400 ↔ r.valid = false) := by
  refine ⟨?_, ?_, ?_⟩
  · have hnotin : ¬ f.content_type ∉ allowed := fun hc => hc h2
    have hlen : ¬ f.content.length = 0 := by
      simpa [List.length_eq_zero] using h3
    simp [validate_id, h1, hnotin, hlen, h4]
  · cases hr : r.valid <;> simp
  · cases hr : r.valid <;> simp

/-- C5, witness: a valid PNG upload with a validator that answers valid gets
status 200 and the result as body. -/
theorem claim5_witness :
    ("id.png".toList ≠ ([] : List Char) ∧ "image/png".toList ∈ allowed ∧
      ([7] : List Nat) ≠ [] ∧ okValidator [7] = .ok ⟨true, PyVal.none, PyVal.none⟩) ∧
    (validate_id okValidator (some ⟨"id.png".toList, "image/png".toList, [7]⟩)).1 =
      .ok (⟨true, PyVal.none, PyVal.none⟩,
        if (ValidationResult.mk true PyVal.none PyVal.none).valid then 200 else 400) :=
  ⟨⟨by decide, by decide, by decide, rfl⟩,
   (claim5_status okValidator ⟨"id.png".toList, "image/png".toList, [7]⟩
     ⟨true, PyVal.none, PyVal.none⟩ (by decide) (by decide) (by decide) rfl).1⟩

/-- C9: each 400 produced by the route's own input validation carries a body
of the `ValidationResult` shape `{valid: false, idNumber: None, error: msg}`
with a distinct non-empty message per validation, and the validations apply
in the fixed order: file presence, filename, content type, byte length (each
branch below is stated without constraining the later checks). -/
theorem claim9_validation_bodies (validator : List Nat → Except PyErr ValidationResult)
    (f : UploadedFile) :
    (validate_id validator Option.none).1 =
      .ok (⟨false, PyVal.none, .str "No image file provided".toList⟩, 400) ∧
    (f.filename = [] →
      (validate_id validator (some f)).1 =
        .ok (⟨false, PyVal.none, .str "Empty filename".toList⟩, 400)) ∧
    (f.filename ≠ [] → f.content_type ∉ allowed →
      (validate_id validator (some f)).1 =
        .ok (⟨false, PyVal.none, .str "Invalid file type".toList⟩, 400)) ∧
    (f.filename ≠ [] → f.content_type ∈ allowed → f.content = [] →
      (validate_id validator (some f)).1 =
        .ok (⟨false, PyVal.none, .str "Empty file".toList⟩, 400)) ∧
    ([ "No image file provided".toList, "Empty filename".toList,
       "Invalid file type".toList, "Empty file".toList ].Nodup ∧
      ∀ m ∈ [ "No image file provided".toList, "Empty filename".toList,
        "Invalid file type".toList, "Empty file".toList ], m ≠ []) := by
  refine ⟨rfl, ?_, ?_, ?_, by decide⟩
  · intro hf
    simp [validate_id, hf]
  · intro hf ht
    simp [validate_id, hf, ht]
  · intro hf ht hc
    have hnotin : ¬ f.content_type ∉ allowed := fun hx => hx ht
    simp [validate_id, hf, hnotin, hc]

/-- C9, witness: the four validation failures at concrete requests. -/
theorem claim9_witness :
    (validate_id okValidator Option.none).1 =
      .ok (⟨false, PyVal.none, .str "No image file provided".toList⟩, 400) ∧
    (validate_id okValidator (some ⟨[], "image/png".toList, [1]⟩)).1 =
      .ok (⟨false, PyVal.none, .str "Empty filename".toList⟩, 400) ∧
    (validate_id okValidator (some ⟨"a.txt".toList, "text/plain".toList, [1]⟩)).1 =
      .ok (⟨false, PyVal.none, .str "Invalid file type".toList⟩, 400) ∧
    (validate_id okValidator (some ⟨"a.png".toList, "image/png".toList, []⟩)).1 =
      .ok (⟨false, PyVal.none, .str "Empty file".toList⟩, 400) :=
  ⟨(claim9_validation_bodies okValidator ⟨[], "image/png".toList, [1]⟩).1,
   (claim9_validation_bodies okValidator ⟨[], "image/png".toList, [1]⟩).2.1 rfl,
   (claim9_validation_bodies okValidator ⟨"a.txt".toList, "text/plain".toList, [1]⟩).2.2.1
     (by decide) (by decide),
   (claim9_validation_bodies okValidator ⟨"a.png".toList, "image/png".toList, []⟩).2.2.2.1
     (by decide) (by decide) rfl⟩

/-! ## Claims about the `chat` route and `BankChatbot.chat` (C6, C7) -/

/-- A concrete chat delegate that succeeds, for witnesses. -/
def replyBot : PyVal → PyVal → PyVal → Except (List Char) (List Char) :=
  fun _ _ _ => .ok "hello".toList

/-- A concrete chat delegate that raises, for witnesses. -/
def failBot : PyVal → PyVal → PyVal → Except (List Char) (List Char) :=
  fun _ _ _ => .error "boom".toList

/-- C6, counterexample: the JSON body `5` lacks a message field, yet the
route does not answer 400 — `"message" not in 5` raises `TypeError`, which
escapes the handler (the framework then produces a 500, not the claimed
400 with an error string). -/
theorem claim6_cex :
    chatRoute replyBot (PyVal.int 5) = .error .typeError ∧ pyTruthy (PyVal.int 5) = true :=
  ⟨rfl, rfl⟩

/-- C6 (amended): a body parsed to `None` (non-JSON bodies included, as
`get_json` is modelled) or to any falsy value, and a body parsed to a JSON
object lacking the `message` key, are answered 400 with the JSON body
`{"error": "Missing (apostrophe)message(apostrophe) field"}`; a body parsed
to an object with `message` is answered 200 with `{"reply": ...}` when the
delegated chat call returns, and 500 with `{"error": "Chat service error:
..."}` when it raises.  (A truthy non-dict body instead raises `TypeError`,
see the counterexample.) -/
theorem claim6_chat_route (bot : PyVal → PyVal → PyVal → Except (List Char) (List Char))
    (data : PyVal) :
    (pyTruthy data = false →
      chatRoute bot data = .ok (.dict [("error".toList, .str missingMessageErr)], 400)) ∧
    (∀ d, data = PyVal.dict d → dictLookup d "message".toList = Option.none →
      chatRoute bot data = .ok (.dict [("error".toList, .str missingMessageErr)], 400)) ∧
    (∀ d msgv reply, data = PyVal.dict d → dictLookup d "message".toList = some msgv →
      bot msgv (dGet d "conversationHistory".toList (.list []))
        (dGet d "userContext".toList (.dict [])) = .ok reply →
      chatRoute bot data = .ok (.dict [("reply".toList, .str reply)], 200)) ∧
    (∀ d msgv e, data = PyVal.dict d → dictLookup d "message".toList = some msgv →
      bot msgv (dGet d "conversationHistory".toList (.list []))
        (dGet d "userContext".toList (.dict [])) = .error e →
      chatRoute bot data = .ok (.dict [("error".toList,
        .str ("Chat service error: ".toList ++ e))], 500)) := by
  refine ⟨?_, ?_, ?_, ?_⟩
  · intro h
    simp [chatRoute, h]
  · intro d hdata hlook
    subst hdata
    by_cases hd : d = []
    · subst hd
      simp [chatRoute, pyTruthy]
    · have hne : d.isEmpty = false := by simpa [List.isEmpty_iff] using hd
      have hlook2 : dictLookup d ('m' :: 'e' :: 's' :: 's' :: 'a' :: 'g' :: 'e' :: []) =
        Option.none := hlook
      simp [chatRoute, pyTruthy, hne, pyInOp, hlook2]
  · intro d msgv reply hdata hlook hbot
    subst hdata
    have hd : d ≠ [] := by
      intro h0
      subst h0
      simp [dictLookup] at hlook
    have hne : d.isEmpty = false := by simpa [List.isEmpty_iff] using hd
    have hlook2 : dictLookup d ('m' :: 'e' :: 's' :: 's' :: 'a' :: 'g' :: 'e' :: []) =
      some msgv := hlook
    have hbot2 : bot msgv
        (dGet d ('c' :: 'o' :: 'n' :: 'v' :: 'e' :: 'r' :: 's' :: 'a' :: 't' :: 'i' :: 'o' :: 'n' :: 'H' :: 'i' :: 's' :: 't' :: 'o' :: 'r' :: 'y' :: []) (PyVal.list []))
        (dGet d ('u' :: 's' :: 'e' :: 'r' :: 'C' :: 'o' :: 'n' :: 't' :: 'e' :: 'x' :: 't' :: []) (PyVal.dict [])) = .ok reply := hbot
    simp [chatRoute, pyTruthy, hne, pyInOp, hlook2, pyGetItem, pyDotGet, hbot2]
  · intro d msgv e hdata hlook hbot
    subst hdata
    have hd : d ≠ [] := by
      intro h0
      subst h0
      simp [dictLookup] at hlook
    have hne : d.isEmpty = false := by simpa [List.isEmpty_iff] using hd
    have hlook2 : dictLookup d ('m' :: 'e' :: 's' :: 's' :: 'a' :: 'g' :: 'e' :: []) =
      some msgv := hlook
    have hbot2 : bot msgv
        (dGet d ('c' :: 'o' :: 'n' :: 'v' :: 'e' :: 'r' :: 's' :: 'a' :: 't' :: 'i' :: 'o' :: 'n' :: 'H' :: 'i' :: 's' :: 't' :: 'o' :: 'r' :: 'y' :: []) (PyVal.list []))
        (dGet d ('u' :: 's' :: 'e' :: 'r' :: 'C' :: 'o' :: 'n' :: 't' :: 'e' :: 'x' :: 't' :: []) (PyVal.dict [])) = .error e := hbot
    simp [chatRoute, pyTruthy, hne, pyInOp, hlook2, pyGetItem, pyDotGet, hbot2]

/-- C6, witness: the four handled cases at concrete bodies. -/
theorem claim6_witness :
    chatRoute replyBot PyVal.none =
      .ok (.dict [("error".toList, .str missingMessageErr)], 400) ∧
    chatRoute replyBot (PyVal.dict [("x".toList, .int 1)]) =
      .ok (.dict [("error".toList, .str missingMessageErr)], 400) ∧
    chatRoute replyBot (PyVal.dict [("message".toList, .str "hi".toList)]) =
      .ok (.dict [("reply".toList, .str "hello".toList)], 200) ∧
    chatRoute failBot (PyVal.dict [("message".toList, .str "hi".toList)]) =
      .ok (.dict [("error".toList, .str ("Chat service error: ".toList ++ "boom".toList))], 500) :=
  ⟨(claim6_chat_route replyBot PyVal.none).1 rfl,
   (claim6_chat_route replyBot (PyVal.dict [("x".toList, .int 1)])).2.1
     [("x".toList, .int 1)] rfl rfl,
   (claim6_chat_route replyBot (PyVal.dict [("message".toList, .str "hi".toList)])).2.2.1
     [("message".toList, .str "hi".toList)] (.str "hi".toList) "hello".toList rfl rfl rfl,
   (claim6_chat_route failBot (PyVal.dict [("message".toList, .str "hi".toList)])).2.2.2
     [("message".toList, .str "hi".toList)] (.str "hi".toList) "boom".toList rfl rfl rfl⟩

/-- C7: the outbound chat-completion request is composed of precisely the
fixed system persona, the rendered customer-data block, the prior turns in
their given order, and the new user message last; the call bounds the output
length (`max_tokens = 500`) and uses a non-zero temperature (0.7); the
returned value is the stripped text of the top choice. -/
theorem claim7_message_order (complete : ChatRequest → List Char)
    (user_message : List Char) (history : List ChatTurn) (ctx : UserContext) :
    (chatCompletionRequest user_message history ctx).messages =
      ⟨"system".toList, SYSTEM_PROMPT⟩ ::
      ⟨"system".toList, "Customer data:\n".toList ++ _build_context ctx⟩ ::
      (history ++ [⟨"user".toList, user_message⟩]) ∧
    (chatCompletionRequest user_message history ctx).max_tokens = 500 ∧
    (chatCompletionRequest user_message history ctx).temperature ≠ 0 ∧
    BankChatbot.chat complete user_message history ctx =
      pyStrip (complete (chatCompletionRequest user_message history ctx)) := by
  refine ⟨?_, rfl, by norm_num [chatCompletionRequest], rfl⟩
  show chatMessages user_message history ctx = _
  simp only [chatMessages]
  rw [foldl_append_turns]
  simp

/-! ## Claims about `_build_context` (C4, C10) -/

theorem mask_infix_accountLine (acc : Account) :
    maskAccountNumber (acc.accountNumber.getD []) <:+: accountLine acc := by
  refine ⟨"  - ".toList ++ acc.type.getD "Account".toList ++ " (".toList,
    "): ".toList ++ fmtTwoDec (acc.balance.getD 0) ++ " ".toList ++
    acc.currency.getD "USD".toList ++ " [Status: ".toList ++
    acc.status.getD "Active".toList ++ "]".toList, ?_⟩
  simp [accountLine, List.append_assoc]

theorem accountLine_infix_context (ctx : UserContext) (acc : Account)
    (hacc : acc ∈ ctx.accounts) : accountLine acc <:+: _build_context ctx := by
  have hne : ctx.accounts.isEmpty = false := by
    cases hm : ctx.accounts with
    | nil => rw [hm] at hacc; cases hacc
    | cons a t => rfl
  simp only [_build_context, hne]
  apply infix_pyJoin
  simp only [Bool.false_eq_true, if_false, List.mem_append, List.mem_cons, List.mem_map]
  exact Or.inl (Or.inr (Or.inr ⟨acc, hacc, rfl⟩))

/-- A context whose userName also carries the digits of the account number
(used to refute the "never the full number" half of C4). -/
def leakCtx : UserContext :=
  ⟨some "1234567890".toList,
   [⟨some "1234567890".toList, Option.none, Option.none, Option.none, Option.none⟩], []⟩

/-- C4, counterexample: a `UserContext` containing an account with number
`1234567890` whose rendered context block nevertheless contains the full
account number — it enters through the `Customer:` line (the `userName`
field), which `_build_context` renders verbatim. -/
theorem claim4_cex :
    (⟨some "1234567890".toList, Option.none, Option.none, Option.none,
      Option.none⟩ : Account) ∈ leakCtx.accounts ∧
    substrOf "***7890".toList (_build_context leakCtx) = true ∧
    substrOf "1234567890".toList (_build_context leakCtx) = true :=
  ⟨List.mem_singleton_self _, rfl, rfl⟩

/-- C4 (amended): whenever some account of the context has account number
`1234567890`, the rendered context block contains the masked form `***7890`;
the account-number field itself is rendered masked to its last four digits
(`***7890`, which does not contain the full number) — though the full number
can still appear in the block when another rendered field carries it. -/
theorem claim4_masking (ctx : UserContext) (acc : Account)
    (h1 : acc ∈ ctx.accounts) (h2 : acc.accountNumber = some "1234567890".toList) :
    substrOf "***7890".toList (_build_context ctx) = true ∧
    maskAccountNumber "1234567890".toList = "***7890".toList ∧
    substrOf "1234567890".toList "***7890".toList = false := by
  refine ⟨?_, rfl, rfl⟩
  apply substrOf_of_infix
  have hm := mask_infix_accountLine acc
  rw [h2] at hm
  have hm2 : "***7890".toList <:+: accountLine acc := hm
  exact hm2.trans (accountLine_infix_context ctx acc h1)

/-- C4, witness: a one-account context (with no other field carrying the
digits) whose block contains the mask. -/
theorem claim4_witness :
    ((⟨some "1234567890".toList, Option.none, Option.none, Option.none,
        Option.none⟩ : Account) ∈
      (⟨Option.none, [⟨some "1234567890".toList, Option.none, Option.none,
        Option.none, Option.none⟩], []⟩ : UserContext).accounts) ∧
    substrOf "***7890".toList
      (_build_context ⟨Option.none, [⟨some "1234567890".toList, Option.none,
        Option.none, Option.none, Option.none⟩], []⟩) = true :=
  ⟨List.mem_singleton_self _,
   (claim4_masking ⟨Option.none, [⟨some "1234567890".toList, Option.none,
      Option.none, Option.none, Option.none⟩], []⟩
     ⟨some "1234567890".toList, Option.none, Option.none, Option.none, Option.none⟩
     (List.mem_singleton_self _) rfl).1⟩

/-- C10: an account number of at most four characters is rendered in full in
the context block, prefixed by `***`; a missing account number renders as the
bare `***` (no exception is possible — the embedding is total); and only
numbers longer than four characters have characters hidden (the mask keeps
exactly the last four then). -/
theorem claim10_short_numbers (ctx : UserContext) (acc : Account) (num : List Char) :
    (acc ∈ ctx.accounts → acc.accountNumber = some num → num.length ≤ 4 →
      substrOf ("***".toList ++ num) (_build_context ctx) = true) ∧
    (acc.accountNumber = Option.none →
      maskAccountNumber (acc.accountNumber.getD []) = "***".toList) ∧
    (4 < num.length →
      maskAccountNumber num = "***".toList ++ pyLastFour num ∧
        (pyLastFour num).length = 4) := by
  refine ⟨?_, ?_, ?_⟩
  · intro h1 h2 h3
    apply substrOf_of_infix
    have hm := mask_infix_accountLine acc
    rw [h2] at hm
    have hmask : maskAccountNumber ((some num).getD []) = "***".toList ++ num := by
      simp [maskAccountNumber, pyLastFour_short num h3]
    rw [hmask] at hm
    exact hm.trans (accountLine_infix_context ctx acc h1)
  · intro h
    rw [h]
    simp [maskAccountNumber, pyLastFour]
  · intro h
    refine ⟨rfl, ?_⟩
    simp only [pyLastFour, List.length_drop]
    omega

/-- C10, witness: the three-character account number `890` appears in full
(as `***890`) in the block, and a number-less account masks to `***`. -/
theorem claim10_witness :
    substrOf ("***".toList ++ "890".toList)
      (_build_context ⟨Option.none, [⟨some "890".toList, Option.none, Option.none,
        Option.none, Option.none⟩], []⟩) = true ∧
    maskAccountNumber ((Option.none : Option (List Char)).getD []) = "***".toList ∧
    maskAccountNumber "1234567890".toList =
      "***".toList ++ pyLastFour "1234567890".toList :=
  ⟨(claim10_short_numbers ⟨Option.none, [⟨some "890".toList, Option.none, Option.none,
      Option.none, Option.none⟩], []⟩
     ⟨some "890".toList, Option.none, Option.none, Option.none, Option.none⟩
     "890".toList).1 (List.mem_singleton_self _) rfl (by decide),
   ((claim10_short_numbers ⟨Option.none, [], []⟩
      ⟨Option.none, Option.none, Option.none, Option.none, Option.none⟩
      "1234567890".toList).2.1 rfl),
   ((claim10_short_numbers ⟨Option.none, [], []⟩
      ⟨Option.none, Option.none, Option.none, Option.none, Option.none⟩
      "1234567890".toList).2.2 (by decide)).1⟩
